import Mathlib

set_option maxHeartbeats 1000000

/-!
Verification development for the Persona_Webscraping repository.

The definitions below are a shallow embedding of the Python sources:
`src/services/search.py`, `src/services/orchestrator.py`,
`src/services/persona_extractor.py`, `src/routes/chat.py` and
`src/routes/search.py`.  Network calls are modelled by passing the
upstream response (or failure) as an explicit argument; environment
variables are modelled as `Option String` fields (a variable set to the
empty string is distinct from an unset one, and Python truthiness is
modelled explicitly).  The module `src/types/orchestrator_plan.py` is not
part of the provided sources; the data shapes it declares are modelled
from the specification where marked.
-/

namespace PersonaWeb

/-! ## Python string primitives -/

/-- Characters removed by the Python `str.strip()` method (ASCII range). -/
def isPyWs (c : Char) : Bool :=
  c == ' ' || c == '\t' || c == '\n' || c == '\r' || c == Char.ofNat 12 || c == Char.ofNat 11

/-- Python `str.strip()` on a list of characters. -/
def pystripL (l : List Char) : List Char :=
  ((l.dropWhile isPyWs).reverse.dropWhile isPyWs).reverse

/-- Python `str.strip()`. -/
def pystripS (s : String) : String := ⟨pystripL s.data⟩

/-- Python truthiness of an optional string: `None` and `""` are falsy. -/
def truthyOptStr : Option String → Bool
  | none => false
  | some s => s != ""

/-- Python `a or b` for two optional strings (`a` if truthy, else `b`). -/
def pyOrOptStr (a b : Option String) : Option String :=
  if truthyOptStr a then a else b

/-- Python `a or b` where `a` is an optional string and `b` a plain string. -/
def pyOrStr (a : Option String) (b : String) : String :=
  match a with
  | some s => if s != "" then s else b
  | none => b

/-- Python `a or b` for optional integers (`0` and `None` are falsy). -/
def pyOrOptInt (a b : Option Int) : Option Int :=
  match a with
  | some n => if n != 0 then some n else b
  | none => b

/-- First-occurrence split step: the text before the first occurrence of
`sep` and the text after it, or `none` when `sep` does not occur.
`sep = []` never occurs in the embedded code (Python raises there). -/
def findSplit (sep : List Char) : List Char → Option (List Char × List Char)
  | [] => none
  | c :: rest =>
    if sep.isPrefixOf (c :: rest) then some ([], (c :: rest).drop sep.length)
    else (findSplit sep rest).map (fun pr => (c :: pr.1, pr.2))

/-- Fuelled worker for Python `str.split(sep)`. -/
def pysplitF : Nat → List Char → List Char → List (List Char)
  | 0, _, l => [l]
  | fuel + 1, sep, l =>
    match findSplit sep l with
    | none => [l]
    | some (pre, post) => pre :: pysplitF fuel sep post

/-- Python `str.split(sep)` (non-empty separator) on character lists. -/
def pysplitL (sep l : List Char) : List (List Char) :=
  pysplitF (l.length + 1) sep l

/-- Python `sep in s` (substring containment). -/
def pyContains (sep s : String) : Bool :=
  (findSplit sep.data s.data).isSome

/-- Python `s.split(sep)` on strings. -/
def pysplitS (sep s : String) : List String :=
  (pysplitL sep.data s.data).map (fun l => ⟨l⟩)

/-- Python `str.lower()` (ASCII). -/
def pyLowerStr (s : String) : String := ⟨s.data.map Char.toLower⟩

/-! ## Search provider abstraction (`src/services/search.py`)

The HTTP layer is modelled by passing the decoded upstream body (or an
exception) as an argument; everything after `response.json()` follows the
source line by line. -/

/-- Modelled from the spec: `src/types/orchestrator_plan.py` is absent from
the provided sources; section 3 of the spec declares
`SearchResult = \x7b position: int, title: string, link: string, snippet: string \x7d`. -/
structure SearchResult where
  position : Int
  title : String
  link : String
  snippet : String
deriving DecidableEq, Repr

/-- Environment variables read by `SearchService` (each `none` when unset). -/
structure SearchEnv where
  search_provider : Option String
  zenserp_api_key : Option String
  serpapi_api_key : Option String
  brave_search_api_key : Option String
  brave_api_key : Option String
deriving DecidableEq, Repr

/-- One entry of the ZenSERP `organic` array, restricted to the fields the
code reads (`position`, `rank`, `title`, `url`, `description`). -/
structure SerpOrganicItem where
  position : Option Int
  rank : Option Int
  title : Option String
  url : Option String
  description : Option String
deriving DecidableEq, Repr

/-- One entry of the Brave `web.results` array, restricted to the fields the
code reads. -/
structure BraveItem where
  title : Option String
  url : Option String
  description : Option String
deriving DecidableEq, Repr

/-- Decoded upstream search responses: `Except.error` models any exception
raised inside the provider-specific `try` block (connection error,
non-JSON body, ...); the `Option` models the `organic` / `web.results`
field being absent from the JSON body. -/
structure SearchUpstream where
  serp : Except String (Option (List SerpOrganicItem))
  brave : Except String (Option (List BraveItem))

namespace SearchService

def MAX_RESULTS_SERPAPI : Nat := 10

def MAX_RESULTS_BRAVE : Nat := 5

/-- Key resolution of `search_serpapi`:
`os.getenv("ZENSERP_API_KEY") or os.getenv("SERPAPI_API_KEY")`. -/
def serpapi_key (env : SearchEnv) : Option String :=
  pyOrOptStr env.zenserp_api_key env.serpapi_api_key

/-- Key resolution of `search_brave`:
`os.getenv("BRAVE_SEARCH_API_KEY") or os.getenv("BRAVE_API_KEY")`. -/
def brave_key (env : SearchEnv) : Option String :=
  pyOrOptStr env.brave_search_api_key env.brave_api_key

/-- Position of one ZenSERP result: `r.get("position") or r.get("rank")`. -/
def serp_position (r : SerpOrganicItem) : Option Int :=
  pyOrOptInt r.position r.rank

/-- Result construction of `search_serpapi` from the decoded `organic`
array.  A result whose position expression evaluates to `None` makes the
(spec-modelled) `SearchResult` constructor raise inside the comprehension,
which the surrounding `except` turns into an empty list. -/
def serpapi_results (organic : List SerpOrganicItem) : List SearchResult :=
  let taken := organic.take MAX_RESULTS_SERPAPI
  if taken.all (fun r => (serp_position r).isSome) then
    taken.map (fun r =>
      { position := (serp_position r).getD 0
        title := r.title.getD ""
        link := r.url.getD ""
        snippet := r.description.getD "" })
  else []

/-- `SearchService.search_serpapi` (lines 36-65 of `search.py`). -/
def search_serpapi (env : SearchEnv) (up : SearchUpstream) : List SearchResult :=
  if ¬ truthyOptStr (serpapi_key env) then []
  else
    match up.serp with
    | .error _ => []
    | .ok organicOpt => serpapi_results (organicOpt.getD [])

/-- Result construction of `search_brave` from the decoded `web.results`
array: positions are always assigned by 1-based enumeration. -/
def brave_results (web_results : List BraveItem) : List SearchResult :=
  (web_results.take MAX_RESULTS_BRAVE).enum.map (fun ir =>
    { position := (ir.1 : Int) + 1
      title := ir.2.title.getD ""
      link := ir.2.url.getD ""
      snippet := ir.2.description.getD "" })

/-- `SearchService.search_brave` (lines 67-108 of `search.py`). -/
def search_brave (env : SearchEnv) (up : SearchUpstream) : List SearchResult :=
  if ¬ truthyOptStr (brave_key env) then []
  else
    match up.brave with
    | .error _ => []
    | .ok webResultsOpt => brave_results (webResultsOpt.getD [])

/-- `SearchService.search` (lines 14-33 of `search.py`):
`provider = provider_override or os.getenv("SEARCH_PROVIDER", "brave")`
followed by the dispatch on the provider name. -/
def search (provider_override : Option String) (env : SearchEnv) (up : SearchUpstream) :
    List SearchResult :=
  let provider := pyOrStr provider_override (env.search_provider.getD "brave")
  if provider = "brave" then search_brave env up
  else if provider = "serpapi" then search_serpapi env up
  else []

end SearchService

/-! ## Plan data model and Python error taxonomy -/

/-- Modelled from the spec: `src/types/orchestrator_plan.py` is absent from
the provided sources; section 3 of the spec declares
`Agent = \x7b task: string, prompt: string \x7d`. -/
structure AgentSpec where
  task : String
  prompt : String
deriving DecidableEq, Repr

/-- Modelled from the spec: `src/types/orchestrator_plan.py` is absent from
the provided sources; section 3 of the spec declares
`Plan = \x7b response: string, agents: ordered sequence of Agent \x7d`. -/
structure OrchestratorPlan where
  response : String
  agents : List AgentSpec
deriving DecidableEq, Repr

/-- Python exceptions distinguished by the embedded code paths. -/
inductive PyError where
  | typeError (msg : String)
  | validationError (msg : String)
  | valueError (msg : String)
  | httpError (status : Nat) (msg : String)
deriving DecidableEq, Repr

instance exceptDecEq {ε α : Type} [DecidableEq ε] [DecidableEq α] :
    DecidableEq (Except ε α) := fun x y =>
  match x, y with
  | .ok a, .ok b =>
    if h : a = b then .isTrue (by rw [h])
    else .isFalse (by intro hc; injection hc; contradiction)
  | .error a, .error b =>
    if h : a = b then .isTrue (by rw [h])
    else .isFalse (by intro hc; injection hc; contradiction)
  | .ok _, .error _ => .isFalse (fun hc => Except.noConfusion hc)
  | .error _, .ok _ => .isFalse (fun hc => Except.noConfusion hc)

/-! ## Person-search route (`src/routes/search.py`) -/

/-- Request body of `POST /search/person` as the validators see it. -/
structure PersonSearchBody where
  name : Option String
  email : Option String
  search_providers : Option (List String)
  include_plan : Bool
  plan_provider : String
  extra_context : Option String
deriving DecidableEq, Repr

/-- Response shape of the person-search endpoint; a search-result group is
a pair of the provider name and its results. -/
structure PersonSearchResponse where
  query : String
  name : Option String
  email : Option String
  plan_provider : String
  orchestrator_plan : Option OrchestratorPlan
  search_results : List (String × List SearchResult)
deriving DecidableEq, Repr

/-- `PersonSearchRequest.ensure_contact_info` (lines 35-41 of
`routes/search.py`): raises unless at least one of `name` and `email` is
truthy. -/
def ensure_contact_info (name email : Option String) : Except String Unit :=
  if ¬ truthyOptStr name ∧ ¬ truthyOptStr email then
    .error "At least one of name or email is required"
  else .ok ()

/-- Loop of lines 79-85 of `routes/search.py`: skip falsy entries, trim and
lowercase, and append only names not already collected. -/
def normalize_loop (acc : List String) : List String → List String
  | [] => acc
  | p :: rest =>
    if p = "" then normalize_loop acc rest
    else
      let normalized := pyLowerStr (pystripS p)
      if normalized ≠ "" ∧ normalized ∉ acc then normalize_loop (acc ++ [normalized]) rest
      else normalize_loop acc rest

/-- Provider-list normalization of `person_search` (lines 78-87):
`providers = request_body.search_providers or [DEFAULT_SEARCH_PROVIDER]`,
then the normalization loop, then the fallback to the default when the
loop collected nothing. -/
def normalize_providers (sp : Option (List String)) (dflt : String) : List String :=
  let providers := match sp with
    | some l => if l ≠ [] then l else [dflt]
    | none => [dflt]
  let normalized := normalize_loop [] providers
  if normalized = [] then [dflt] else normalized

/-- Providers considered by `person_search` before normalization. -/
def providersOf (sp : Option (List String)) (dflt : String) : List String :=
  match sp with
  | some l => if l ≠ [] then l else [dflt]
  | none => [dflt]

/-- Cleaning of one provider entry: falsy entries and entries that trim to
nothing are dropped, the rest are trimmed and lowercased. -/
def cleanProvider (p : String) : Option String :=
  if p = "" then none
  else
    let n := pyLowerStr (pystripS p)
    if n = "" then none else some n

/-- Specification-side dedup: keeps the first occurrence of each element,
in order of first occurrence. -/
def firstDedupAux (seen : List String) : List String → List String
  | [] => []
  | x :: xs => if x ∈ seen then firstDedupAux seen xs else x :: firstDedupAux (x :: seen) xs

/-- Distinct elements of a list in order of first occurrence. -/
def firstDedup (l : List String) : List String := firstDedupAux [] l

/-- `person_search` (lines 70-111 of `routes/search.py`).  The searches and
the plan generation are passed in as functions; the second component of
the result lists the upstream calls the handler issued, in order.  Both
pydantic validators (the `ensure_contact_info` model validator, then the
`Literal` check on `plan_provider`) run before the handler body, so a
validation failure issues no upstream call. -/
def build_person_query (body : PersonSearchBody) : String :=
  String.intercalate " " (([body.name, body.email, body.extra_context]).filterMap
    (fun p => match p with
      | some s => if s ≠ "" ∧ pystripS s ≠ "" then some (pystripS s) else none
      | none => none))

def person_search (body : PersonSearchBody) (dflt : String)
    (searchFn : String → List SearchResult)
    (planFn : String → String → Except String OrchestratorPlan) :
    Except PyError PersonSearchResponse × List String :=
  match ensure_contact_info body.name body.email with
  | .error e => (.error (.validationError e), [])
  | .ok _ =>
    if body.plan_provider = "google" ∨ body.plan_provider = "anthropic" then
      if build_person_query body = "" then
        (.error (.httpError 400 "Unable to construct a query from the request data"), [])
      else
        let provs := normalize_providers body.search_providers dflt
        let groups := provs.map (fun p => (p, searchFn p))
        let searchCalls := provs.map (fun p => "search:" ++ p)
        if body.include_plan then
          match planFn (pyLowerStr body.plan_provider) (build_person_query body) with
          | .error m =>
            (.error (.httpError 500 ("Failed to generate orchestrator plan: " ++ m)),
              searchCalls ++ ["plan:" ++ pyLowerStr body.plan_provider])
          | .ok p =>
            (.ok ⟨build_person_query body, body.name, body.email, body.plan_provider, some p, groups⟩,
              searchCalls ++ ["plan:" ++ pyLowerStr body.plan_provider])
        else
          (.ok ⟨build_person_query body, body.name, body.email, body.plan_provider, none, groups⟩,
            searchCalls)
    else (.error (.validationError "plan_provider must be google or anthropic"), [])

/-! ## Streaming chat pipeline (`src/routes/chat.py`)

`spin_up_orchestrator` performs one HTTP call and either raises or
returns a plan; its outcome is an input of the model.  `call_ai_agent` is
an async generator: the missing-credential `ValueError` is raised before
its `try` block and so propagates to the caller on first iteration, while
any exception inside the `try` (timeout, HTTP status error, connection
error) is caught there and yielded as one error-typed JSON line, after
which the generator ends normally. -/

/-- Environment variables read by `call_ai_agent`. -/
structure ChatEnv where
  google_api_key : Option String
  gemini_api_key : Option String
deriving DecidableEq, Repr

/-- Key resolution of `call_ai_agent` (lines 43-48 of `chat.py`):
`GOOGLE_API_KEY` if truthy, else `GEMINI_API_KEY` if truthy, else the
`ValueError` is raised. -/
def resolveAgentKey (env : ChatEnv) : Option String :=
  if truthyOptStr env.google_api_key then env.google_api_key
  else if truthyOptStr env.gemini_api_key then env.gemini_api_key
  else none

/-- Behaviour of one upstream Gemini streaming call: the lines delivered by
`response.aiter_lines()` before the call either completes (`failure =
none`) or raises inside the `try` block (`failure = some msg`, covering
`raise_for_status` errors, timeouts and connection errors). -/
structure UpstreamBehavior where
  lines : List String
  failure : Option String
deriving DecidableEq, Repr

/-- One item yielded by the `call_ai_agent` generator: either a raw
upstream line or the error-typed JSON line built in its `except` branch. -/
inductive ChunkItem where
  | rawLine (line : String)
  | errorLine (msg : String)
deriving DecidableEq, Repr

/-- Outcome of iterating the `call_ai_agent` generator. -/
inductive CallOutcome where
  | raises (msg : String)
  | yields (chunks : List ChunkItem)
deriving DecidableEq, Repr

/-- `call_ai_agent` (lines 41-96 of `chat.py`): raises when no credential
is configured; otherwise forwards every non-blank upstream line and, when
the upstream call fails inside the `try` block, yields a single
error-typed line and ends normally. -/
def call_ai_agent (api_key : Option String) (up : UpstreamBehavior) : CallOutcome :=
  match api_key with
  | none => .raises "GEMINI_API_KEY or GOOGLE_API_KEY not set"
  | some _ =>
    .yields ((up.lines.filter (fun l => pystripS l ≠ "")).map ChunkItem.rawLine
      ++ (match up.failure with
          | some m => [ChunkItem.errorLine m]
          | none => []))

/-- Fixed sub-agent prompt: the local placeholder `build_sub_agent_prompt`
defined in `chat.py` (lines 28-29), which shadows the longer prompt of
`src/services/prompt.py` in this file. -/
def build_sub_agent_prompt : String := "You are a helpful assistant."

/-- System-prompt construction of `stream_generator` (lines 117-121 of
`chat.py`): the fixed sub-agent prompt, with the knowledge block appended
only when the knowledge list is non-empty, one bulleted line per entry. -/
def build_system_prompt (knowledge_entries : List String) : String :=
  if knowledge_entries.isEmpty then build_sub_agent_prompt
  else
    build_sub_agent_prompt ++ "\n\nKnowledge Base:\n"
      ++ String.intercalate "\n" (knowledge_entries.map (fun k => "- " ++ k))

/-- Semantic events carried by the `data:` frames of the SSE stream.  The
error-typed JSON line yielded by the `except` branch of `call_ai_agent`
and the error frame of the top-level handler of `stream_generator` have
the same wire shape and are both rendered as `errorEvt`. -/
inductive StreamEvent where
  | planEvt (response : String) (agents : List AgentSpec)
  | agentStart (agent task prompt : String)
  | chunk (line : String)
  | agentEnd (agent : String)
  | errorEvt (msg : String)
deriving DecidableEq, Repr

/-- Frame emitted for one item yielded by `call_ai_agent`. -/
def chunkToEvent : ChunkItem → StreamEvent
  | .rawLine l => .chunk l
  | .errorLine m => .errorEvt m

/-- Per-agent loop of `stream_generator` (lines 113-142 of `chat.py`).
Returns the emitted events and the `(prompt, system_prompt)` pairs passed
to `call_ai_agent`.  A `raises` outcome propagates to the top-level
handler: the error event is emitted and the whole generator ends, so the
remaining agents produce nothing.  `knowledge` is threaded unchanged:
no statement of the loop body appends to `knowledge_entries`. -/
def stream_agents (env : ChatEnv) (up : Nat → UpstreamBehavior) (knowledge : List String) :
    Nat → List AgentSpec → List StreamEvent × List (String × String)
  | _, [] => ([], [])
  | idx, a :: rest =>
    let sys := build_system_prompt knowledge
    match call_ai_agent (resolveAgentKey env) (up idx) with
    | .raises msg =>
      ([.agentStart a.task a.task a.prompt, .errorEvt msg], [(a.prompt, sys)])
    | .yields chunks =>
      let tail := stream_agents env up knowledge (idx + 1) rest
      (.agentStart a.task a.task a.prompt
          :: (chunks.map chunkToEvent ++ (.agentEnd a.task :: tail.1)),
        (a.prompt, sys) :: tail.2)

/-- `stream_generator` (lines 100-146 of `chat.py`).  `planOutcome` is the
result of the awaited `spin_up_orchestrator(query)` call: `Except.error`
models the call raising (its connectivity, credential and no-candidates
errors all propagate), in which case the top-level handler emits a single
error event and the stream ends before any plan event. -/
def stream_generator (planOutcome : Except String OrchestratorPlan) (env : ChatEnv)
    (up : Nat → UpstreamBehavior) : List StreamEvent × List (String × String) :=
  match planOutcome with
  | .error msg => ([.errorEvt msg], [])
  | .ok plan =>
    let tail := stream_agents env up [] 0 plan.agents
    (.planEvt plan.response plan.agents :: tail.1, tail.2)

/-- Recognizer for plan events. -/
def isPlanEvt : StreamEvent → Bool
  | .planEvt _ _ => true
  | _ => false

/-- Recognizer for the agent start and end boundary events. -/
def isBoundary : StreamEvent → Bool
  | .agentStart _ _ _ => true
  | .agentEnd _ => true
  | _ => false

/-- Expected boundary-event trace of a list of agents: one start and one
end per agent, in array order. -/
def boundaryTrace (agents : List AgentSpec) : List StreamEvent :=
  agents.flatMap (fun a => [.agentStart a.task a.task a.prompt, .agentEnd a.task])

/-! ## JSON values and `json.loads` (used by `src/services/orchestrator.py`)

A fuelled recursive-descent parser mirroring the strict behaviour of the
Python `json` module on its standard subset: JSON whitespace, `null`,
booleans, numbers (no leading zeros, optional fraction and exponent),
strings with the standard escapes and `uXXXX` escapes, arrays and
objects.  The fuel only bounds nesting depth and is always ample for its
input, so it never affects the result. -/

inductive Json where
  | null
  | bool (b : Bool)
  | num (intPart : Int) (fracDigits : List Char) (expPart : Int)
  | str (s : String)
  | arr (elems : List Json)
  | obj (members : List (String × Json))

/-- JSON whitespace skipping (space, tab, newline, carriage return). -/
def jskipWs : List Char → List Char
  | c :: rest =>
    if c = ' ' ∨ c = '\t' ∨ c = '\n' ∨ c = '\r' then jskipWs rest else c :: rest
  | [] => []

/-- Value of one hexadecimal digit. -/
def jhexVal (c : Char) : Option Nat :=
  if c.isDigit then some (c.toNat - 48)
  else if 'a' ≤ c ∧ c ≤ 'f' then some (c.toNat - 87)
  else if 'A' ≤ c ∧ c ≤ 'F' then some (c.toNat - 55)
  else none

/-- Body of a JSON string after the opening quote: returns the decoded
characters and the input after the closing quote.  Raw control characters
are rejected, as in the strict Python decoder. -/
def jparseStrBody : Nat → List Char → Option (List Char × List Char)
  | 0, _ => none
  | fuel + 1, cs =>
    match cs with
    | [] => none
    | c :: rest =>
      if c = '"' then some ([], rest)
      else if c = '\\' then
        match rest with
        | [] => none
        | e :: rest2 =>
          if e = '"' ∨ e = '\\' ∨ e = '/' then
            (jparseStrBody fuel rest2).map (fun pr => (e :: pr.1, pr.2))
          else if e = 'b' then
            (jparseStrBody fuel rest2).map (fun pr => (Char.ofNat 8 :: pr.1, pr.2))
          else if e = 'f' then
            (jparseStrBody fuel rest2).map (fun pr => (Char.ofNat 12 :: pr.1, pr.2))
          else if e = 'n' then
            (jparseStrBody fuel rest2).map (fun pr => ('\n' :: pr.1, pr.2))
          else if e = 'r' then
            (jparseStrBody fuel rest2).map (fun pr => ('\r' :: pr.1, pr.2))
          else if e = 't' then
            (jparseStrBody fuel rest2).map (fun pr => ('\t' :: pr.1, pr.2))
          else if e = 'u' then
            match rest2 with
            | h1 :: h2 :: h3 :: h4 :: rest3 =>
              match jhexVal h1, jhexVal h2, jhexVal h3, jhexVal h4 with
              | some a, some b, some c2, some d =>
                (jparseStrBody fuel rest3).map
                  (fun pr => (Char.ofNat (a * 4096 + b * 256 + c2 * 16 + d) :: pr.1, pr.2))
              | _, _, _, _ => none
            | _ => none
          else none
      else if c.toNat < 32 then none
      else (jparseStrBody fuel rest).map (fun pr => (c :: pr.1, pr.2))

/-- Decimal digits to a natural number. -/
def jdigitsToNat (ds : List Char) : Nat :=
  ds.foldl (fun acc c => acc * 10 + (c.toNat - 48)) 0

/-- Optional exponent part of a JSON number. -/
def jparseExp (cs : List Char) : Option (Int × List Char) :=
  match cs with
  | c :: rest =>
    if c = 'e' ∨ c = 'E' then
      let sr : Bool × List Char := match rest with
        | s :: r2 => if s = '+' then (false, r2) else if s = '-' then (true, r2) else (false, rest)
        | [] => (false, rest)
      let eds := sr.2.takeWhile Char.isDigit
      if eds = [] then none
      else
        some ((if sr.1 then -(Int.ofNat (jdigitsToNat eds)) else Int.ofNat (jdigitsToNat eds)),
          sr.2.drop eds.length)
    else some (0, cs)
  | [] => some (0, [])

/-- JSON number: optional minus, integer part with no leading zeros,
optional fraction, optional exponent. -/
def jparseNum (cs : List Char) : Option (Json × List Char) :=
  let sgn : Bool × List Char := match cs with
    | c :: rest => if c = '-' then (true, rest) else (false, cs)
    | [] => (false, cs)
  match sgn.2 with
  | [] => none
  | d :: _ =>
    if ¬ d.isDigit then none
    else
      let intDigits := if d = '0' then [d] else sgn.2.takeWhile Char.isDigit
      let rest1 := sgn.2.drop intDigits.length
      let ip : Int :=
        if sgn.1 then -(Int.ofNat (jdigitsToNat intDigits)) else Int.ofNat (jdigitsToNat intDigits)
      match rest1 with
      | '.' :: frest =>
        let fds := frest.takeWhile Char.isDigit
        if fds = [] then none
        else
          (jparseExp (frest.drop fds.length)).map (fun pr => (Json.num ip fds pr.1, pr.2))
      | _ => (jparseExp rest1).map (fun pr => (Json.num ip [] pr.1, pr.2))

/-- Comma-separated array elements after the opening bracket (non-empty
case), parameterized by the value parser of the enclosing level. -/
def jparseElemsWith (pval : List Char → Option (Json × List Char)) :
    Nat → List Char → Option (List Json × List Char)
  | 0, _ => none
  | fuel + 1, cs =>
    match pval cs with
    | none => none
    | some (v, rest) =>
      match jskipWs rest with
      | ',' :: rest2 => (jparseElemsWith pval fuel rest2).map (fun pr => (v :: pr.1, pr.2))
      | ']' :: rest2 => some ([v], rest2)
      | _ => none

/-- Comma-separated object members after the opening brace (non-empty
case), parameterized by the value parser of the enclosing level. -/
def jparseMembersWith (pval : List Char → Option (Json × List Char)) :
    Nat → List Char → Option (List (String × Json) × List Char)
  | 0, _ => none
  | fuel + 1, cs =>
    match jskipWs cs with
    | q :: rest =>
      if q = '"' then
        match jparseStrBody (rest.length + 1) rest with
        | none => none
        | some (kcs, rest2) =>
          match jskipWs rest2 with
          | ':' :: rest3 =>
            match pval rest3 with
            | none => none
            | some (v, rest4) =>
              match jskipWs rest4 with
              | m :: rest5 =>
                if m = ',' then
                  (jparseMembersWith pval fuel rest5).map
                    (fun pr => ((⟨kcs⟩, v) :: pr.1, pr.2))
                else if m = Char.ofNat 125 then some ([(⟨kcs⟩, v)], rest5)
                else none
              | [] => none
          | _ => none
      else none
    | [] => none

/-- One JSON value, by recursive descent; the fuel bounds nesting depth. -/
def jparseVal : Nat → List Char → Option (Json × List Char)
  | 0, _ => none
  | fuel + 1, cs =>
    match jskipWs cs with
    | [] => none
    | c :: rest =>
      if c = 'n' then
        if ['u', 'l', 'l'].isPrefixOf rest then some (.null, rest.drop 3) else none
      else if c = 't' then
        if ['r', 'u', 'e'].isPrefixOf rest then some (.bool true, rest.drop 3) else none
      else if c = 'f' then
        if ['a', 'l', 's', 'e'].isPrefixOf rest then some (.bool false, rest.drop 4) else none
      else if c = '"' then
        (jparseStrBody (rest.length + 1) rest).map (fun pr => (.str ⟨pr.1⟩, pr.2))
      else if c = '[' then
        match jskipWs rest with
        | ']' :: rest2 => some (.arr [], rest2)
        | cs2 => (jparseElemsWith (jparseVal fuel) (cs2.length + 1) cs2).map
            (fun pr => (.arr pr.1, pr.2))
      else if c = Char.ofNat 123 then
        match jskipWs rest with
        | m :: rest2 =>
          if m = Char.ofNat 125 then some (.obj [], rest2)
          else (jparseMembersWith (jparseVal fuel) (rest.length + 1) (jskipWs rest)).map
            (fun pr => (.obj pr.1, pr.2))
        | [] => none
      else jparseNum (c :: rest)

/-- Python `json.loads`: a complete JSON value with only whitespace after
it, else a `json.JSONDecodeError` (carried as `Except.error`). -/
def json_loads (s : String) : Except String Json :=
  match jparseVal (4 * s.data.length + 16) s.data with
  | some (v, rest) => if jskipWs rest = [] then .ok v else .error "Extra data"
  | none => .error "Expecting value"

/-! ## Orchestrator response parsing (`src/services/orchestrator.py`)

Lines 61-79 of `spin_up_orchestrator` and lines 136-152 of
`spin_up_orchestrator_anthropic` contain the identical parse step: fence
extraction, `json.loads`, construction of `OrchestratorPlan(**plan_data)`,
with only `json.JSONDecodeError` caught and turned into the fallback
plan.  Any other exception of the step (a `TypeError` from `**` on a
non-mapping, a pydantic validation error) escapes the inner handler and,
re-raised by the outer `except`, propagates out of the generator. -/

/-- Python dict lookup on decoded JSON object members (last key wins). -/
def jsonLookup (kvs : List (String × Json)) (k : String) : Option Json :=
  (kvs.reverse.find? (fun kv => kv.1 == k)).map (fun kv => kv.2)

/-- Modelled from the spec: agent validation inside
`OrchestratorPlan(**plan_data)`; `src/types/orchestrator_plan.py` is
absent from the provided sources and section 3 of the spec declares
`Agent = \x7b task: string, prompt: string \x7d` with both fields required. -/
def agentFromJson : Json → Option AgentSpec
  | .obj kvs =>
    match jsonLookup kvs "task", jsonLookup kvs "prompt" with
    | some (.str t), some (.str p) => some ⟨t, p⟩
    | _, _ => none
  | _ => none

/-- Validation of the `agents` array, element by element. -/
def agentsFromJson : List Json → Option (List AgentSpec)
  | [] => some []
  | j :: rest =>
    match agentFromJson j, agentsFromJson rest with
    | some a, some ags => some (a :: ags)
    | _, _ => none

/-- Modelled from the spec: the validation performed by
`OrchestratorPlan(**plan_data)`; `src/types/orchestrator_plan.py` is
absent from the provided sources and section 3 of the spec declares
`Plan = \x7b response: string, agents: sequence of Agent \x7d` with both
fields required.  Unpacking a non-mapping with `**` raises `TypeError`
by Python semantics regardless of the model class. -/
def plan_from_json : Json → Except PyError OrchestratorPlan
  | .obj kvs =>
    match jsonLookup kvs "response", jsonLookup kvs "agents" with
    | some (.str r), some (.arr js) =>
      match agentsFromJson js with
      | some ags => .ok ⟨r, ags⟩
      | none => .error (.validationError "agents")
    | _, _ => .error (.validationError "response and agents are required")
  | _ => .error (.typeError "argument after ** must be a mapping")

/-- Fallback plan built in the `except json.JSONDecodeError` branch. -/
def fallback_plan : OrchestratorPlan := ⟨"Unable to parse orchestrator response", []⟩

/-- Fence extraction of lines 63-68 of `orchestrator.py`. -/
def extract_json_str (content : String) : String :=
  if pyContains "```json" content then
    pystripS ((pysplitS "```" ((pysplitS "```json" content).getD 1 "")).getD 0 "")
  else if pyContains "```" content then
    pystripS ((pysplitS "```" ((pysplitS "```" content).getD 1 "")).getD 0 "")
  else content

/-- Plan-parsing step shared by `spin_up_orchestrator` (lines 61-79) and
`spin_up_orchestrator_anthropic` (lines 136-152): only a JSON decode
failure is caught and degraded to the fallback plan; a shape failure of
the decoded value propagates as an exception. -/
def orchestrator_parse_step (content : String) : Except PyError OrchestratorPlan :=
  match json_loads (extract_json_str content) with
  | .error _ => .ok fallback_plan
  | .ok v => plan_from_json v

/-- The backtick character (the fence marker character). -/
def btChar : Char := Char.ofNat 96

/-- True when a character list contains no backtick. -/
def noBacktick (l : List Char) : Bool := l.all (fun c => c ≠ btChar)

/-! ## Regex engine (`re.search` / `re.sub` as used by the persona extractor)

A backtracking matcher producing candidate match ends in the preference
order of the Python `re` module: alternation tries the left branch first,
greedy repetition tries longer matches first, lazy repetition shorter
ones.  `re.search` scans start positions left to right and takes the
first position with a match, then the first candidate in preference
order.  All repetitions in the embedded patterns range over single-char
classes, which keeps the matcher structurally recursive. -/

/-- Python `\w` over ASCII. -/
def isWordChar (c : Char) : Bool := c.isAlphanum || c = '_'

/-- Python `\s` over ASCII. -/
def isPyWsRe (c : Char) : Bool :=
  c = ' ' || c = '\t' || c = '\n' || c = '\r' || c = Char.ofNat 11 || c = Char.ofNat 12

/-- Regular expressions of the persona extractor: character classes,
literals (case-sensitive and case-insensitive), sequence, alternation,
greedy and lazy star over a class, greedy option, one capturing group,
word boundary and end-of-string. -/
inductive RE where
  | cls (p : Char → Bool)
  | lit (s : List Char)
  | liti (s : List Char)
  | seq (a b : RE)
  | alt (a b : RE)
  | starG (p : Char → Bool)
  | starL (p : Char → Bool)
  | opt (a : RE)
  | grp (a : RE)
  | wordB
  | eos

/-- Greedy plus over a class. -/
def plusG (p : Char → Bool) : RE := .seq (.cls p) (.starG p)

/-- Lazy plus over a class. -/
def plusL (p : Char → Bool) : RE := .seq (.cls p) (.starL p)

/-- Case-sensitive literal test at a position. -/
def litAt (chars s : List Char) (pos : Nat) : Bool :=
  s.isPrefixOf (chars.drop pos)

/-- Case-insensitive literal test at a position. -/
def litiAt (chars s : List Char) (pos : Nat) : Bool :=
  (s.map Char.toLower).isPrefixOf ((chars.drop pos).map Char.toLower)

/-- Length of the maximal run of class characters from a position. -/
def runLen (chars : List Char) (p : Char → Bool) (pos : Nat) : Nat :=
  ((chars.drop pos).takeWhile p).length

/-- Python word-boundary test at a position. -/
def wordBoundary (chars : List Char) (pos : Nat) : Bool :=
  let pre : Bool := match pos with
    | 0 => false
    | i + 1 => match chars[i]? with
      | some c => isWordChar c
      | none => false
  let cur : Bool := match chars[pos]? with
    | some c => isWordChar c
    | none => false
  pre != cur

/-- Python `$` (no MULTILINE): end of input or just before a final newline. -/
def atEos (chars : List Char) (pos : Nat) : Bool :=
  pos = chars.length ∨ (pos + 1 = chars.length ∧ (chars[pos]?.getD ' ') = '\n')

/-- All candidate (end position, group-1 capture) pairs of a match of `r`
at a position, in backtracking preference order. -/
def reRun (chars : List Char) : RE → Nat → Option (Nat × Nat) → List (Nat × Option (Nat × Nat))
  | .cls p, pos, cap =>
    match chars[pos]? with
    | some c => if p c then [(pos + 1, cap)] else []
    | none => []
  | .lit s, pos, cap => if litAt chars s pos then [(pos + s.length, cap)] else []
  | .liti s, pos, cap => if litiAt chars s pos then [(pos + s.length, cap)] else []
  | .seq a b, pos, cap => (reRun chars a pos cap).flatMap (fun pc => reRun chars b pc.1 pc.2)
  | .alt a b, pos, cap => reRun chars a pos cap ++ reRun chars b pos cap
  | .starG p, pos, cap =>
    ((List.range (runLen chars p pos + 1)).reverse).map (fun k => (pos + k, cap))
  | .starL p, pos, cap =>
    (List.range (runLen chars p pos + 1)).map (fun k => (pos + k, cap))
  | .opt a, pos, cap => reRun chars a pos cap ++ [(pos, cap)]
  | .grp a, pos, cap => (reRun chars a pos cap).map (fun pc => (pc.1, some (pos, pc.1)))
  | .wordB, pos, cap => if wordBoundary chars pos then [(pos, cap)] else []
  | .eos, pos, cap => if atEos chars pos then [(pos, cap)] else []

/-- Scan of `re.search`: first start position with a match wins. -/
def reSearchAux (chars : List Char) (r : RE) : Nat → Nat → Option (Nat × Nat × Option (Nat × Nat))
  | 0, _ => none
  | fuel + 1, pos =>
    match reRun chars r pos none with
    | pc :: _ => some (pos, pc.1, pc.2)
    | [] => reSearchAux chars r fuel (pos + 1)

/-- Python `re.search`: `(match start, match end, group-1 span)`. -/
def reSearch (chars : List Char) (r : RE) : Option (Nat × Nat × Option (Nat × Nat)) :=
  reSearchAux chars r (chars.length + 1) 0

/-- Matched text (`match.group(0)`). -/
def reGroup0 (chars : List Char) (res : Nat × Nat × Option (Nat × Nat)) : String :=
  ⟨(chars.drop res.1).take (res.2.1 - res.1)⟩

/-- First captured group (`match.group(1)`). -/
def reGroup1 (chars : List Char) (res : Nat × Nat × Option (Nat × Nat)) : Option String :=
  res.2.2.map (fun se => ⟨(chars.drop se.1).take (se.2 - se.1)⟩)

/-- The apostrophe character. -/
def aposChar : Char := Char.ofNat 39

/-- Experience pattern of line 57 of `persona_extractor.py` (IGNORECASE). -/
def reExperience : RE :=
  .seq (.grp (plusG Char.isDigit))
    (.seq (.opt (.lit ['+']))
      (.seq (.starG isPyWsRe)
        (.seq (.alt (.seq (.liti "year".data) (.opt (.liti ['s'])))
                    (.liti ['y', 'e', 'a', 'r', aposChar, 's']))
          (.seq (plusG isPyWsRe)
            (.seq (.opt (.seq (.liti "of".data) (plusG isPyWsRe)))
              (.alt (.liti "experience".data) (.liti "expertise".data)))))))

/-- Email pattern of line 62 of `persona_extractor.py` (note the literal
pipe inside the top-level-domain class, faithful to the source). -/
def emailLocalChar (c : Char) : Bool :=
  c.isAlphanum || c = '.' || c = '_' || c = '%' || c = '+' || c = '-'

def emailDomChar (c : Char) : Bool := c.isAlphanum || c = '.' || c = '-'

def emailTldChar (c : Char) : Bool := c.isAlpha || c = '|'

def reEmail : RE :=
  .seq .wordB
    (.seq (plusG emailLocalChar)
      (.seq (.lit ['@'])
        (.seq (plusG emailDomChar)
          (.seq (.lit ['.'])
            (.seq (.seq (.cls emailTldChar) (plusG emailTldChar)) .wordB)))))

/-- LinkedIn pattern of line 68 of `persona_extractor.py` (IGNORECASE). -/
def reLinkedin : RE :=
  .alt (.liti "linkedin.com/in/".data)
    (.seq (.lit ['@'])
      (.seq (plusG isWordChar)
        (.seq (.starG (fun c => c ≠ '\n')) (.liti "linkedin".data))))

/-- Twitter pattern of line 69 of `persona_extractor.py` (IGNORECASE). -/
def reTwitter : RE :=
  .alt (.liti "twitter.com/".data)
    (.seq (.lit ['@']) (.seq (plusG isWordChar) (.alt (.cls isPyWsRe) .eos)))

/-- GitHub pattern of line 70 of `persona_extractor.py` (IGNORECASE). -/
def reGithub : RE :=
  .seq (.liti "github.com/".data) (plusG (fun c => isWordChar c || c = '-'))

/-- Company pattern of line 82 of `persona_extractor.py` (case-sensitive,
lazy inner repetition). -/
def companyChar (c : Char) : Bool := c.isAlpha || isPyWsRe c || c = '&'

def isUpperAZ (c : Char) : Bool := 'A' ≤ c && c ≤ 'Z'

def reCompany : RE :=
  .seq (.alt (.lit "at".data) (.lit "from".data))
    (.seq (plusG isPyWsRe)
      (.seq (.grp (.seq (.cls isUpperAZ) (plusL companyChar)))
        (.alt (.cls isPyWsRe) (.alt (.lit [',']) (.alt (.lit ['-']) .eos)))))

/-- Python `re.sub(r"[^\w\s]", "", s)`: keep word and space characters. -/
def pySubKeepWordSpace (s : String) : String :=
  ⟨s.data.filter (fun c => isWordChar c || isPyWsRe c)⟩

/-! ## Persona extractor (`src/services/persona_extractor.py`) -/

/-- Input of `extract_persona`: a result dict, restricted to the keys the
code reads (`title`, `url`, `snippet`), each possibly absent. -/
structure PyResult where
  title : Option String
  url : Option String
  snippet : Option String
deriving DecidableEq, Repr

/-- Output dict of `extract_persona`; `bio` is always assigned a string
(the first 500 snippet characters, defaulting to the empty string), the
other fields default to `None`. -/
structure Persona where
  full_name : Option String
  job_title : Option String
  company : Option String
  image_url : Option String
  experience : Option String
  email : Option String
  social_media : Option String
  source_url : Option String
  bio : Option String
deriving DecidableEq, Repr

namespace PersonaExtractor

/-- `PersonaExtractor.extract_persona` (lines 12-86 of
`persona_extractor.py`), field by field in source order. -/
def extract_persona (result : PyResult) : Persona :=
  let title := result.title.getD ""
  let snippet := result.snippet.getD ""
  let url := result.url.getD ""
  let name_part0 :=
    if pyContains "|" title then pystripS ((pysplitS "|" title).getD 0 "")
    else pystripS ((pysplitS " - " title).getD 0 "")
  let name_part := pystripS (pySubKeepWordSpace name_part0)
  let full_name := if name_part ≠ "" then some name_part else none
  let job_title :=
    if pyContains "|" title then
      let parts := pysplitS "|" title
      let title_part := if parts.length > 1 then pystripS (parts.getD 1 "") else ""
      if title_part ≠ "" then some (⟨title_part.data.take 100⟩ : String) else none
    else none
  let experience := match reSearch snippet.data reExperience with
    | some res => (reGroup1 snippet.data res).map (fun g1 => g1 ++ "+ years")
    | none => none
  let email := (reSearch snippet.data reEmail).map (fun res => reGroup0 snippet.data res)
  let hay := (snippet ++ " " ++ url).data
  let found := ([("linkedin", reLinkedin), ("twitter", reTwitter), ("github", reGithub)]).filterMap
    (fun pr => (reSearch hay pr.2).map (fun res => pr.1 ++ ": " ++ reGroup0 hay res))
  let social_media := if found ≠ [] then some (String.intercalate " | " found) else none
  let company := match reSearch snippet.data reCompany with
    | some res => (reGroup1 snippet.data res).map (fun g1 => pystripS g1)
    | none => none
  { full_name := full_name
    job_title := job_title
    company := company
    image_url := none
    experience := experience
    email := email
    social_media := social_media
    source_url := result.url
    bio := some (⟨snippet.data.take 500⟩ : String) }

end PersonaExtractor

/-! ## Claims C5 and C6 -/

/-- C5, counterexample: a ZenSERP organic entry whose vendor `position`
field is absent but whose `rank` field is `7` yields a result with
position `7`, not the 1-based enumeration position `1` the claim
requires when the vendor position field is absent. -/
theorem serpapi_rank_position_counterexample :
    (SearchService.search (some "serpapi")
        ⟨none, some "zk", none, none, none⟩
        ⟨.ok (some [⟨none, some 7, some "T", some "u", some "s"⟩]), .ok none⟩).map
        SearchResult.position = [7]
    ∧ ([7] : List Int) ≠ [1] := ⟨rfl, by decide⟩

/-- C5 (amended): `search_serpapi` returns at most 10 results and
`search_brave` at most 5, each in the vendor order; a ZenSERP result takes
its position from the vendor `position` field, falling back to the vendor
`rank` field (with `0` treated as falsy), while a Brave result is always
assigned its 1-based enumeration position. -/
theorem search_caps_order_positions
    (env : SearchEnv) (up : SearchUpstream)
    (organic : List SerpOrganicItem) (items : List BraveItem)
    (h : (organic.take SearchService.MAX_RESULTS_SERPAPI).all
        (fun r => (SearchService.serp_position r).isSome) = true) :
    (SearchService.search_serpapi env up).length ≤ 10
    ∧ (SearchService.search_brave env up).length ≤ 5
    ∧ (SearchService.serpapi_results organic).map
        (fun r => (r.position, r.title, r.link, r.snippet))
      = (organic.take 10).map (fun r =>
          ((SearchService.serp_position r).getD 0, r.title.getD "",
            r.url.getD "", r.description.getD ""))
    ∧ (SearchService.brave_results items).map
        (fun r => (r.position, r.title, r.link, r.snippet))
      = (items.take 5).enum.map (fun ir =>
          ((ir.1 : Int) + 1, ir.2.title.getD "", ir.2.url.getD "", ir.2.description.getD "")) := by
  have hserp : ∀ org : List SerpOrganicItem, (SearchService.serpapi_results org).length ≤ 10 := by
    intro org
    simp only [SearchService.serpapi_results]
    split
    · simp [SearchService.MAX_RESULTS_SERPAPI, List.length_take]
    · simp
  have hbrv : ∀ its : List BraveItem, (SearchService.brave_results its).length ≤ 5 := by
    intro its
    simp only [SearchService.brave_results]
    simp [SearchService.MAX_RESULTS_BRAVE, List.length_take, List.enum_length]
  refine ⟨?_, ?_, ?_, ?_⟩
  · unfold SearchService.search_serpapi
    split
    · simp
    · split
      · simp
      · exact hserp _
  · unfold SearchService.search_brave
    split
    · simp
    · split
      · simp
      · exact hbrv _
  · simp only [SearchService.serpapi_results]
    rw [if_pos h]
    simp [SearchService.MAX_RESULTS_SERPAPI, List.map_map, Function.comp_def]
  · simp only [SearchService.brave_results]
    simp [SearchService.MAX_RESULTS_BRAVE, List.map_map, Function.comp_def]

/-- Witness for `search_caps_order_positions` at a concrete environment,
upstream and vendor arrays. -/
theorem search_caps_order_positions_witness :
    (SearchService.search_serpapi ⟨none, none, none, none, none⟩
        ⟨.ok none, .ok none⟩).length ≤ 10
    ∧ (SearchService.search_brave ⟨none, none, none, none, none⟩
        ⟨.ok none, .ok none⟩).length ≤ 5
    ∧ (SearchService.serpapi_results [⟨some 3, none, some "T", some "u", some "s"⟩]).map
        (fun r => (r.position, r.title, r.link, r.snippet))
      = ([⟨some 3, none, some "T", some "u", some "s"⟩].take 10).map
          (fun r : SerpOrganicItem =>
            ((SearchService.serp_position r).getD 0, r.title.getD "",
              r.url.getD "", r.description.getD ""))
    ∧ (SearchService.brave_results [⟨some "T", some "u", some "s"⟩]).map
        (fun r => (r.position, r.title, r.link, r.snippet))
      = ([(⟨some "T", some "u", some "s"⟩ : BraveItem)].take 5).enum.map
          (fun ir => ((ir.1 : Int) + 1, ir.2.title.getD "", ir.2.url.getD "", ir.2.description.getD "")) :=
  search_caps_order_positions ⟨none, none, none, none, none⟩ ⟨.ok none, .ok none⟩
    [⟨some 3, none, some "T", some "u", some "s"⟩] [⟨some "T", some "u", some "s"⟩] (by decide)

/-- C6, counterexample: the empty string is a provider name outside the
supported set, yet `search` with an empty-string override does not return
the empty sequence: the falsy override falls back to the default provider
(`"brave"`), which returns the upstream results. -/
theorem search_empty_override_counterexample :
    SearchService.search (some "")
        ⟨none, none, none, some "bk", none⟩
        ⟨.error "boom", .ok (some [⟨some "T", some "u", some "s"⟩])⟩
      = [⟨1, "T", "u", "s"⟩]
    ∧ SearchService.search (some "")
        ⟨none, none, none, some "bk", none⟩
        ⟨.error "boom", .ok (some [⟨some "T", some "u", some "s"⟩])⟩ ≠ []
    ∧ ("" : String) ≠ "brave" ∧ ("" : String) ≠ "serpapi" :=
  ⟨rfl, by decide, by decide, by decide⟩

/-- C6 (amended): a non-empty provider name outside the supported set
yields an empty result list without error; an empty-string override falls
back to the default provider instead; and `"brave"` with no Brave
credential in the environment yields an empty result list without error. -/
theorem search_unknown_provider_empty
    (p : String) (env : SearchEnv) (up : SearchUpstream)
    (hne : p ≠ "") (hb : p ≠ "brave") (hs : p ≠ "serpapi") :
    SearchService.search (some p) env up = []
    ∧ (truthyOptStr (SearchService.brave_key env) = false →
        SearchService.search_brave env up = []
        ∧ SearchService.search (some "brave") env up = []) := by
  constructor
  · unfold SearchService.search pyOrStr
    simp only [ne_eq, hne, not_false_iff, bne_iff_ne, if_true]
    rw [if_neg hb, if_neg hs]
  · intro hkey
    have hbr : SearchService.search_brave env up = [] := by
      unfold SearchService.search_brave
      rw [if_pos (by simp [hkey])]
    refine ⟨hbr, ?_⟩
    unfold SearchService.search pyOrStr
    simp [hbr]

/-- Witness for `search_unknown_provider_empty` at the provider name
`"duckduckgo"` and an environment with no Brave credential. -/
theorem search_unknown_provider_empty_witness :
    SearchService.search (some "duckduckgo") ⟨none, none, none, none, none⟩
        ⟨.ok none, .ok (some [⟨some "T", some "u", some "s"⟩])⟩ = []
    ∧ (truthyOptStr (SearchService.brave_key ⟨none, none, none, none, none⟩) = false →
        SearchService.search_brave ⟨none, none, none, none, none⟩
            ⟨.ok none, .ok (some [⟨some "T", some "u", some "s"⟩])⟩ = []
        ∧ SearchService.search (some "brave") ⟨none, none, none, none, none⟩
            ⟨.ok none, .ok (some [⟨some "T", some "u", some "s"⟩])⟩ = []) :=
  search_unknown_provider_empty "duckduckgo" ⟨none, none, none, none, none⟩
    ⟨.ok none, .ok (some [⟨some "T", some "u", some "s"⟩])⟩
    (by decide) (by decide) (by decide)

/-! ## Claims C8 and C10 -/

theorem firstDedupAux_congr (s t : List String) (hst : ∀ x, x ∈ s ↔ x ∈ t) :
    ∀ l, firstDedupAux s l = firstDedupAux t l := by
  intro l
  induction l generalizing s t with
  | nil => rfl
  | cons x xs ih =>
    unfold firstDedupAux
    by_cases hx : x ∈ s
    · rw [if_pos hx, if_pos ((hst x).mp hx), ih s t hst]
    · rw [if_neg hx, if_neg (fun hc => hx ((hst x).mpr hc))]
      rw [ih (x :: s) (x :: t) (by intro y; simp [hst y])]

theorem normalize_loop_cons (acc : List String) (p : String) (rest : List String) :
    normalize_loop acc (p :: rest)
      = if p = "" then normalize_loop acc rest
        else if pyLowerStr (pystripS p) ≠ "" ∧ pyLowerStr (pystripS p) ∉ acc
          then normalize_loop (acc ++ [pyLowerStr (pystripS p)]) rest
          else normalize_loop acc rest := rfl

theorem firstDedupAux_cons (seen : List String) (x : String) (xs : List String) :
    firstDedupAux seen (x :: xs)
      = if x ∈ seen then firstDedupAux seen xs else x :: firstDedupAux (x :: seen) xs := rfl

theorem normalize_loop_eq_firstDedupAux (l : List String) :
    ∀ acc, normalize_loop acc l = acc ++ firstDedupAux acc (l.filterMap cleanProvider) := by
  induction l with
  | nil => intro acc; simp [normalize_loop, firstDedupAux]
  | cons p rest ih =>
    intro acc
    rw [normalize_loop_cons]
    by_cases hp : p = ""
    · rw [if_pos hp, List.filterMap_cons_none (by simp [cleanProvider, hp]), ih]
    · rw [if_neg hp]
      by_cases hn : pyLowerStr (pystripS p) = ""
      · rw [if_neg (by simp [hn]),
          List.filterMap_cons_none (by simp [cleanProvider, hp, hn]), ih]
      · have hcs : cleanProvider p = some (pyLowerStr (pystripS p)) := by
          simp [cleanProvider, hp, hn]
        rw [List.filterMap_cons_some hcs]
        by_cases hmem : pyLowerStr (pystripS p) ∈ acc
        · rw [if_neg (by simp [hmem]), ih, firstDedupAux_cons, if_pos hmem]
        · rw [if_pos ⟨hn, hmem⟩, ih, firstDedupAux_cons, if_neg hmem,
            List.append_assoc, List.singleton_append,
            firstDedupAux_congr (acc ++ [pyLowerStr (pystripS p)])
              (pyLowerStr (pystripS p) :: acc) (by intro y; simp; tauto)]

theorem mem_firstDedupAux (y : String) :
    ∀ (l : List String) (seen : List String), y ∈ firstDedupAux seen l → y ∉ seen := by
  intro l
  induction l with
  | nil => intro seen h; simp [firstDedupAux] at h
  | cons x xs ih =>
    intro seen h
    unfold firstDedupAux at h
    by_cases hx : x ∈ seen
    · rw [if_pos hx] at h
      exact ih seen h
    · rw [if_neg hx] at h
      rcases List.mem_cons.mp h with h1 | h2
      · exact h1 ▸ hx
      · intro hy
        exact ih (x :: seen) h2 (List.mem_cons_of_mem x hy)

theorem nodup_firstDedupAux : ∀ (l seen : List String), (firstDedupAux seen l).Nodup := by
  intro l
  induction l with
  | nil => intro seen; simp [firstDedupAux]
  | cons x xs ih =>
    intro seen
    unfold firstDedupAux
    by_cases hx : x ∈ seen
    · rw [if_pos hx]; exact ih seen
    · rw [if_neg hx]
      refine List.nodup_cons.mpr ⟨?_, ih (x :: seen)⟩
      intro hmem
      exact mem_firstDedupAux x xs (x :: seen) hmem (List.mem_cons_self x seen)

/-- C8: a person-search body in which both `name` and `email` are falsy
fails the `ensure_contact_info` validator, producing a client validation
error with no upstream search or plan call issued; a body in which at
least one of them is truthy passes that validator. -/
theorem person_search_requires_contact :
    (∀ (body : PersonSearchBody) (dflt : String)
      (searchFn : String → List SearchResult)
      (planFn : String → String → Except String OrchestratorPlan),
      truthyOptStr body.name = false → truthyOptStr body.email = false →
      person_search body dflt searchFn planFn
        = (.error (.validationError "At least one of name or email is required"), []))
    ∧ (∀ name email : Option String, (truthyOptStr name || truthyOptStr email) = true →
        ensure_contact_info name email = .ok ()) := by
  constructor
  · intro body dflt sf pf hn he
    unfold person_search ensure_contact_info
    rw [if_pos ⟨by simp [hn], by simp [he]⟩]
  · intro name email h
    unfold ensure_contact_info
    rw [if_neg]
    rcases Bool.or_eq_true_iff.mp h with h1 | h1 <;> simp [h1]

/-- Witness for `person_search_requires_contact`: the empty body is
rejected with no calls, and a name-only pair passes the validator. -/
theorem person_search_requires_contact_witness :
    person_search ⟨none, none, none, true, "google", none⟩ "brave"
        (fun _ => []) (fun _ _ => .error "down")
      = (.error (.validationError "At least one of name or email is required"), [])
    ∧ ensure_contact_info (some "Jane Doe") none = .ok () :=
  ⟨person_search_requires_contact.1 ⟨none, none, none, true, "google", none⟩ "brave"
      (fun _ => []) (fun _ _ => .error "down") rfl rfl,
    person_search_requires_contact.2 (some "Jane Doe") none rfl⟩

/-- C10: the provider groups of a successful person-search response are in
bijection with the distinct trimmed-and-lowercased provider names, in
order of first occurrence, with duplicate and blank entries dropped and a
fallback to the single default provider when the list is absent or reduces
to empty. -/
theorem person_search_provider_groups :
    (∀ (sp : Option (List String)) (dflt : String),
      normalize_providers sp dflt
        = (if (providersOf sp dflt).filterMap cleanProvider = [] then [dflt]
           else firstDedup ((providersOf sp dflt).filterMap cleanProvider)))
    ∧ (∀ l : List String, (firstDedup l).Nodup)
    ∧ (∀ (body : PersonSearchBody) (dflt : String)
        (searchFn : String → List SearchResult)
        (planFn : String → String → Except String OrchestratorPlan)
        (r : PersonSearchResponse) (calls : List String),
        person_search body dflt searchFn planFn = (.ok r, calls) →
        r.search_results.map Prod.fst = normalize_providers body.search_providers dflt) := by
  refine ⟨?_, ?_, ?_⟩
  · intro sp dflt
    have hloop : normalize_loop [] (providersOf sp dflt)
        = firstDedup ((providersOf sp dflt).filterMap cleanProvider) := by
      rw [normalize_loop_eq_firstDedupAux, List.nil_append, firstDedup]
    have hiff : firstDedup ((providersOf sp dflt).filterMap cleanProvider) = []
        ↔ (providersOf sp dflt).filterMap cleanProvider = [] := by
      cases (providersOf sp dflt).filterMap cleanProvider <;>
        simp [firstDedup, firstDedupAux]
    have hnp : normalize_providers sp dflt
        = (if normalize_loop [] (providersOf sp dflt) = [] then [dflt]
           else normalize_loop [] (providersOf sp dflt)) := rfl
    rw [hnp, hloop]
    by_cases hc : (providersOf sp dflt).filterMap cleanProvider = []
    · rw [if_pos (hiff.mpr hc), if_pos hc]
    · rw [if_neg (fun hx => hc (hiff.mp hx)), if_neg hc]
  · intro l
    exact nodup_firstDedupAux l []
  · intro body dflt sf pf r calls h
    unfold person_search at h
    cases hec : ensure_contact_info body.name body.email with
    | error e => rw [hec] at h; simp at h
    | ok u =>
      rw [hec] at h
      by_cases hpp : body.plan_provider = "google" ∨ body.plan_provider = "anthropic"
      · rw [if_pos hpp] at h
        by_cases hq : build_person_query body = ""
        · rw [if_pos hq] at h; simp at h
        · rw [if_neg hq] at h
          by_cases hip : body.include_plan = true
          · rw [if_pos hip] at h
            cases hpf : pf (pyLowerStr body.plan_provider) (build_person_query body) with
            | error m => rw [hpf] at h; simp at h
            | ok p =>
              rw [hpf] at h
              simp only [Prod.mk.injEq, Except.ok.injEq] at h
              obtain ⟨h1, _⟩ := h
              rw [← h1]
              simp [List.map_map, Function.comp_def]
          · rw [if_neg hip] at h
            simp only [Prod.mk.injEq, Except.ok.injEq] at h
            obtain ⟨h1, _⟩ := h
            rw [← h1]
            simp [List.map_map, Function.comp_def]
      · rw [if_neg hpp] at h; simp at h

/-- Witness for `person_search_provider_groups` at a concrete body whose
provider list has duplicates, blanks and mixed case. -/
theorem person_search_provider_groups_witness :
    normalize_providers (some ["Brave ", "", " BRAVE", "serpapi"]) "brave"
      = (if (providersOf (some ["Brave ", "", " BRAVE", "serpapi"]) "brave").filterMap
            cleanProvider = [] then ["brave"]
         else firstDedup ((providersOf (some ["Brave ", "", " BRAVE", "serpapi"]) "brave").filterMap
            cleanProvider))
    ∧ (firstDedup ["b", "a", "b"]).Nodup
    ∧ ((⟨"Jane", some "Jane", none, "google", none,
          [("brave", []), ("serpapi", [])]⟩ : PersonSearchResponse).search_results.map Prod.fst
        = normalize_providers (some ["Brave ", "", " BRAVE", "serpapi"]) "brave") :=
  ⟨person_search_provider_groups.1 (some ["Brave ", "", " BRAVE", "serpapi"]) "brave",
    person_search_provider_groups.2.1 ["b", "a", "b"],
    person_search_provider_groups.2.2
      ⟨some "Jane", none, some ["Brave ", "", " BRAVE", "serpapi"], false, "google", none⟩
      "brave" (fun _ => []) (fun _ _ => .error "down")
      ⟨"Jane", some "Jane", none, "google", none, [("brave", []), ("serpapi", [])]⟩
      ["search:brave", "search:serpapi"] rfl⟩

/-! ## Claims C1, C2 and C9 -/

theorem filter_isPlanEvt_chunks (cs : List ChunkItem) :
    (cs.map chunkToEvent).filter isPlanEvt = [] := by
  induction cs with
  | nil => rfl
  | cons c cs ih => cases c <;> simp [chunkToEvent, isPlanEvt, ih]

theorem filter_isBoundary_chunks (cs : List ChunkItem) :
    (cs.map chunkToEvent).filter isBoundary = [] := by
  induction cs with
  | nil => rfl
  | cons c cs ih => cases c <;> simp [chunkToEvent, isBoundary, ih]

theorem stream_agents_events (env : ChatEnv) (up : Nat → UpstreamBehavior)
    (knowledge : List String) (hkey : resolveAgentKey env ≠ none) :
    ∀ (agents : List AgentSpec) (idx : Nat),
      (stream_agents env up knowledge idx agents).1.filter isPlanEvt = []
      ∧ (stream_agents env up knowledge idx agents).1.filter isBoundary = boundaryTrace agents := by
  intro agents
  induction agents with
  | nil => intro idx; simp [stream_agents, boundaryTrace]
  | cons a rest ih =>
    intro idx
    obtain ⟨cs, hcs⟩ : ∃ cs, call_ai_agent (resolveAgentKey env) (up idx) = .yields cs := by
      cases h : resolveAgentKey env with
      | none => exact absurd h hkey
      | some k => exact ⟨_, rfl⟩
    unfold stream_agents
    rw [hcs]
    constructor
    · simp [List.filter_cons, List.filter_append, isPlanEvt,
        filter_isPlanEvt_chunks cs, (ih (idx + 1)).1]
    · simp [List.filter_cons, List.filter_append, isBoundary,
        filter_isBoundary_chunks cs, (ih (idx + 1)).2, boundaryTrace]

/-- C1: for a successfully generated plan and a configured agent
credential, the emitted event sequence begins with the plan event, that is
the only plan event in the sequence, and the agent boundary events are
exactly one start/end pair per planned agent, in array order, so no agent
starts before the previous agent has ended. -/
theorem stream_event_protocol (plan : OrchestratorPlan) (env : ChatEnv)
    (up : Nat → UpstreamBehavior) (hkey : resolveAgentKey env ≠ none) :
    (stream_generator (.ok plan) env up).1.head? = some (.planEvt plan.response plan.agents)
    ∧ (stream_generator (.ok plan) env up).1.filter isPlanEvt
        = [.planEvt plan.response plan.agents]
    ∧ (stream_generator (.ok plan) env up).1.filter isBoundary = boundaryTrace plan.agents := by
  have h := stream_agents_events env up [] hkey plan.agents 0
  unfold stream_generator
  refine ⟨rfl, ?_, ?_⟩
  · simp [List.filter_cons, isPlanEvt, h.1]
  · simp [List.filter_cons, isBoundary, h.2]

/-- Witness for `stream_event_protocol` on a two-agent plan with one
upstream line per agent. -/
theorem stream_event_protocol_witness :
    (stream_generator (.ok ⟨"r", [⟨"t1", "p1"⟩, ⟨"t2", "p2"⟩]⟩) ⟨some "k", none⟩
        (fun _ => ⟨["data: x"], none⟩)).1.head?
      = some (.planEvt "r" [⟨"t1", "p1"⟩, ⟨"t2", "p2"⟩])
    ∧ (stream_generator (.ok ⟨"r", [⟨"t1", "p1"⟩, ⟨"t2", "p2"⟩]⟩) ⟨some "k", none⟩
        (fun _ => ⟨["data: x"], none⟩)).1.filter isPlanEvt
      = [.planEvt "r" [⟨"t1", "p1"⟩, ⟨"t2", "p2"⟩]]
    ∧ (stream_generator (.ok ⟨"r", [⟨"t1", "p1"⟩, ⟨"t2", "p2"⟩]⟩) ⟨some "k", none⟩
        (fun _ => ⟨["data: x"], none⟩)).1.filter isBoundary
      = boundaryTrace [⟨"t1", "p1"⟩, ⟨"t2", "p2"⟩] :=
  stream_event_protocol ⟨"r", [⟨"t1", "p1"⟩, ⟨"t2", "p2"⟩]⟩ ⟨some "k", none⟩
    (fun _ => ⟨["data: x"], none⟩) (by decide)

/-- C2, counterexample: with a two-agent plan whose second agent call
times out inside the `try` block of `call_ai_agent`, the stream does not
end at the error frame: the error-typed line is followed by the second
agent end event, contradicting the claimed terminal sequence. -/
theorem agent_timeout_counterexample :
    (stream_generator (.ok ⟨"r", [⟨"t1", "p1"⟩, ⟨"t2", "p2"⟩]⟩) ⟨some "k", none⟩
        (fun i => if i = 0 then ⟨["data: a", "data: b", "data: c"], none⟩
                  else ⟨[], some "Request timed out"⟩)).1
      = [.planEvt "r" [⟨"t1", "p1"⟩, ⟨"t2", "p2"⟩],
         .agentStart "t1" "t1" "p1", .chunk "data: a", .chunk "data: b", .chunk "data: c",
         .agentEnd "t1",
         .agentStart "t2" "t2" "p2", .errorEvt "Request timed out", .agentEnd "t2"]
    ∧ StreamEvent.agentEnd "t2"
        ∈ (stream_generator (.ok ⟨"r", [⟨"t1", "p1"⟩, ⟨"t2", "p2"⟩]⟩) ⟨some "k", none⟩
            (fun i => if i = 0 then ⟨["data: a", "data: b", "data: c"], none⟩
                      else ⟨[], some "Request timed out"⟩)).1 :=
  ⟨rfl, by decide⟩

/-- C2 (amended): an exception that propagates out of plan generation or
out of the agent-call generator (the missing-credential `ValueError`)
yields a single error event and immediate termination with no agent end
for the failing agent and nothing for later agents; but an upstream
failure caught inside `call_ai_agent` (timeout, HTTP or connection error)
is emitted as an error-typed frame after which the agent end event is
still emitted and the remaining agents still run, so the boundary trace
stays complete. -/
theorem stream_error_handling (env : ChatEnv) (up : Nat → UpstreamBehavior) :
    (∀ msg, stream_generator (.error msg) env up = ([.errorEvt msg], []))
    ∧ (∀ (plan : OrchestratorPlan) (a : AgentSpec) (rest : List AgentSpec),
        resolveAgentKey env = none → plan.agents = a :: rest →
        (stream_generator (.ok plan) env up).1
          = [.planEvt plan.response plan.agents,
             .agentStart a.task a.task a.prompt,
             .errorEvt "GEMINI_API_KEY or GOOGLE_API_KEY not set"])
    ∧ (∀ plan : OrchestratorPlan, resolveAgentKey env ≠ none →
        (stream_generator (.ok plan) env up).1.filter isBoundary = boundaryTrace plan.agents) := by
  refine ⟨fun msg => rfl, ?_, ?_⟩
  · intro plan a rest hk hag
    obtain ⟨resp, agents⟩ := plan
    simp only at hag
    subst hag
    simp [stream_generator, stream_agents, call_ai_agent, hk]
  · intro plan hkey
    have h := stream_agents_events env up [] hkey plan.agents 0
    unfold stream_generator
    simp [List.filter_cons, isBoundary, h.2]

/-- Witness for `stream_error_handling`: plan failure, missing credential
on a one-agent plan, and a complete boundary trace despite an upstream
failure. -/
theorem stream_error_handling_witness :
    stream_generator (.error "plan down") (⟨none, none⟩ : ChatEnv) (fun _ => ⟨[], none⟩)
      = ([.errorEvt "plan down"], [])
    ∧ (stream_generator (.ok ⟨"r", [⟨"t1", "p1"⟩]⟩) (⟨none, none⟩ : ChatEnv)
        (fun _ => ⟨[], none⟩)).1
      = [.planEvt "r" [⟨"t1", "p1"⟩], .agentStart "t1" "t1" "p1",
         .errorEvt "GEMINI_API_KEY or GOOGLE_API_KEY not set"]
    ∧ (stream_generator (.ok ⟨"r", [⟨"t1", "p1"⟩]⟩) (⟨some "k", none⟩ : ChatEnv)
        (fun _ => ⟨[], some "boom"⟩)).1.filter isBoundary = boundaryTrace [⟨"t1", "p1"⟩] :=
  ⟨(stream_error_handling ⟨none, none⟩ (fun _ => ⟨[], none⟩)).1 "plan down",
    (stream_error_handling ⟨none, none⟩ (fun _ => ⟨[], none⟩)).2.1
      ⟨"r", [⟨"t1", "p1"⟩]⟩ ⟨"t1", "p1"⟩ [] rfl rfl,
    (stream_error_handling ⟨some "k", none⟩ (fun _ => ⟨[], some "boom"⟩)).2.2
      ⟨"r", [⟨"t1", "p1"⟩]⟩ (by decide)⟩

theorem stream_agents_prompts (env : ChatEnv) (up : Nat → UpstreamBehavior)
    (knowledge : List String) :
    ∀ (agents : List AgentSpec) (idx : Nat) (pr : String × String),
      pr ∈ (stream_agents env up knowledge idx agents).2 →
      pr.2 = build_system_prompt knowledge := by
  intro agents
  induction agents with
  | nil => intro idx pr h; simp [stream_agents] at h
  | cons a rest ih =>
    intro idx pr h
    unfold stream_agents at h
    cases hc : call_ai_agent (resolveAgentKey env) (up idx) with
    | raises m =>
      rw [hc] at h
      simp only [List.mem_singleton] at h
      rw [h]
    | yields cs =>
      rw [hc] at h
      rcases List.mem_cons.mp h with h1 | h2
      · rw [h1]
      · exact ih (idx + 1) pr h2

/-- C9: the knowledge list of `stream_generator` starts empty and is never
appended to, so every `(prompt, system_prompt)` pair passed to
`call_ai_agent` carries exactly the fixed sub-agent prompt with the
knowledge section omitted; and the knowledge block is appended only for a
non-empty knowledge list, rendered as one bulleted line per entry. -/
theorem knowledge_section_omitted :
    (∀ (po : Except String OrchestratorPlan) (env : ChatEnv)
      (up : Nat → UpstreamBehavior) (pr : String × String),
      pr ∈ (stream_generator po env up).2 → pr.2 = build_sub_agent_prompt)
    ∧ (∀ ks : List String, ks ≠ [] →
        build_system_prompt ks
          = build_sub_agent_prompt ++ "\n\nKnowledge Base:\n"
              ++ String.intercalate "\n" (ks.map (fun k => "- " ++ k))) := by
  constructor
  · intro po env up pr hmem
    cases po with
    | error msg => simp [stream_generator] at hmem
    | ok plan =>
      have := stream_agents_prompts env up [] plan.agents 0 pr
        (by simpa [stream_generator] using hmem)
      simpa [build_system_prompt] using this
  · intro ks hks
    unfold build_system_prompt
    rw [if_neg (by simpa using hks)]

/-- Witness for `knowledge_section_omitted` on a concrete one-agent run
and a one-entry knowledge list. -/
theorem knowledge_section_omitted_witness :
    (("p1", "You are a helpful assistant.") : String × String).2 = build_sub_agent_prompt
    ∧ build_system_prompt ["Paris is the capital of France"]
      = build_sub_agent_prompt ++ "\n\nKnowledge Base:\n"
          ++ String.intercalate "\n" (["Paris is the capital of France"].map (fun k => "- " ++ k)) :=
  ⟨knowledge_section_omitted.1 (.ok ⟨"r", [⟨"t1", "p1"⟩]⟩) ⟨some "k", none⟩
      (fun _ => ⟨[], none⟩) ("p1", "You are a helpful assistant.") (by decide),
    knowledge_section_omitted.2 ["Paris is the capital of France"] (by decide)⟩

/-! ## Claims C3 and C4 -/

theorem isPrefixOf_append_self (sep rest : List Char) :
    sep.isPrefixOf (sep ++ rest) = true := by
  induction sep with
  | nil => simp [List.isPrefixOf]
  | cons c cs ih => simp [List.isPrefixOf, ih]

theorem findSplit_nil (sep : List Char) : findSplit sep [] = none := by
  unfold findSplit
  rfl

theorem findSplit_append_sep (sep rest : List Char) (hne : sep ≠ []) :
    findSplit sep (sep ++ rest) = some ([], rest) := by
  cases sep with
  | nil => exact absurd rfl hne
  | cons c cs =>
    show findSplit (c :: cs) (c :: (cs ++ rest)) = some ([], rest)
    conv_lhs => unfold findSplit
    rw [if_pos (show (c :: cs).isPrefixOf (c :: (cs ++ rest)) = true from
      isPrefixOf_append_self (c :: cs) rest)]
    simp [List.drop_succ_cons, List.drop_left]

theorem findSplit_cons_notPrefix (sep : List Char) (c : Char) (rest : List Char)
    (h : sep.isPrefixOf (c :: rest) = false) :
    findSplit sep (c :: rest) = (findSplit sep rest).map (fun pr => (c :: pr.1, pr.2)) := by
  conv_lhs => unfold findSplit
  rw [if_neg (by simp [h])]

theorem findSplit_skip_noBt (sep : List Char) (hne : sep ≠ [])
    (hhd : sep.headD ' ' = btChar) (a b : List Char) (ha : noBacktick a = true) :
    findSplit sep (a ++ b) = (findSplit sep b).map (fun pr => (a ++ pr.1, pr.2)) := by
  induction a with
  | nil =>
    show findSplit sep b = (findSplit sep b).map (fun pr => ([] ++ pr.1, pr.2))
    cases findSplit sep b <;> simp
  | cons x xs ih =>
    have h1 : noBacktick (x :: xs) = true := ha
    unfold noBacktick at h1
    rw [List.all_cons, Bool.and_eq_true] at h1
    have hx : x ≠ btChar := of_decide_eq_true h1.1
    have hxs : noBacktick xs = true := h1.2
    rw [List.cons_append]
    rw [findSplit_cons_notPrefix]
    · rw [ih hxs]
      cases findSplit sep b <;> simp
    · cases sep with
      | nil => exact absurd rfl hne
      | cons s ss =>
        have hs : s = btChar := by simpa using hhd
        subst hs
        show ((btChar == x) && ss.isPrefixOf (xs ++ b)) = false
        have hbx : (btChar == x) = false := by
          rw [beq_eq_false_iff_ne]
          intro hc
          exact hx hc.symm
        rw [hbx, Bool.false_and]

theorem findSplit_noBt_none (sep : List Char) (hne : sep ≠ [])
    (hhd : sep.headD ' ' = btChar) (a : List Char) (ha : noBacktick a = true) :
    findSplit sep a = none := by
  have h := findSplit_skip_noBt sep hne hhd a [] ha
  rw [List.append_nil] at h
  rw [h, findSplit_nil]
  rfl

theorem pysplitF_of_none (fuel : Nat) (sep l : List Char) (h : findSplit sep l = none) :
    pysplitF fuel sep l = [l] := by
  cases fuel with
  | zero => rfl
  | succ f =>
    conv_lhs => unfold pysplitF
    rw [h]

theorem pysplitF_of_some (fuel : Nat) (sep l pre post : List Char) (h1 : 1 ≤ fuel)
    (h : findSplit sep l = some (pre, post)) :
    pysplitF fuel sep l = pre :: pysplitF (fuel - 1) sep post := by
  cases fuel with
  | zero => omega
  | succ f =>
    conv_lhs => unfold pysplitF
    rw [h]
    simp

theorem pystripL_cons_ws (c : Char) (l : List Char) (hc : isPyWs c = true) :
    pystripL (c :: l) = pystripL l := by
  unfold pystripL
  rw [List.dropWhile_cons]
  rw [if_pos hc]

theorem pystripL_append_ws (l : List Char) (c : Char) (hc : isPyWs c = true) :
    pystripL (l ++ [c]) = pystripL l := by
  unfold pystripL
  rw [List.dropWhile_append]
  by_cases hd : (l.dropWhile isPyWs).isEmpty
  · rw [if_pos hd]
    rw [List.isEmpty_iff.mp hd]
    simp [List.dropWhile, hc]
  · rw [if_neg hd]
    rw [List.reverse_append]
    simp only [List.reverse_cons, List.reverse_nil, List.nil_append, List.singleton_append]
    rw [List.dropWhile_cons]
    rw [if_pos hc]
/-- C3, counterexample: the text `[1, 2, 3]` decodes as JSON but is not
the Plan shape, and the parse step raises the `TypeError` of unpacking a
non-mapping instead of returning the fallback plan (only
`json.JSONDecodeError` is caught). -/
theorem orchestrator_wrong_shape_counterexample :
    json_loads "[1, 2, 3]" = .ok (.arr [.num 1 [] 0, .num 2 [] 0, .num 3 [] 0])
    ∧ orchestrator_parse_step "[1, 2, 3]"
        = .error (.typeError "argument after ** must be a mapping")
    ∧ orchestrator_parse_step "[1, 2, 3]" ≠ .ok fallback_plan :=
  ⟨rfl, rfl, by decide⟩

/-- C3 (amended): a provider response text whose extracted text fails to
decode as JSON never raises out of the parse step: it yields the fallback
plan; a text that decodes as JSON is handed to the plan constructor,
whose shape errors propagate. -/
theorem orchestrator_parse_fallback :
    (∀ (content : String) (e : String),
      json_loads (extract_json_str content) = .error e →
      orchestrator_parse_step content = .ok fallback_plan)
    ∧ (∀ (content : String) (v : Json),
      json_loads (extract_json_str content) = .ok v →
      orchestrator_parse_step content = plan_from_json v) := by
  constructor
  · intro content e h
    unfold orchestrator_parse_step
    rw [h]
  · intro content v h
    unfold orchestrator_parse_step
    rw [h]

/-- Witness for `orchestrator_parse_fallback` on a non-JSON response and
on a well-formed plan response. -/
theorem orchestrator_parse_fallback_witness :
    orchestrator_parse_step "not json at all" = .ok fallback_plan
    ∧ orchestrator_parse_step "\x7b\"response\":\"x\",\"agents\":[]\x7d"
      = plan_from_json (.obj [("response", .str "x"), ("agents", .arr [])]) :=
  ⟨orchestrator_parse_fallback.1 "not json at all" "Expecting value" rfl,
    orchestrator_parse_fallback.2 "\x7b\"response\":\"x\",\"agents\":[]\x7d"
      (.obj [("response", .str "x"), ("agents", .arr [])]) rfl⟩

/-- C4, counterexample: the JSON object text
`\x7b"response":"``` [] ```","agents":[]\x7d` deserializes to a Plan value, yet
wrapping it in a ```json fence makes the parse step return the fallback
plan while the unfenced text makes it raise, so the three wrappings do
not produce the identical Plan value. -/
theorem plan_fence_roundtrip_counterexample :
    json_loads "\x7b\"response\":\"``` [] ```\",\"agents\":[]\x7d"
      = .ok (.obj [("response", .str "``` [] ```"), ("agents", .arr [])])
    ∧ plan_from_json (.obj [("response", .str "``` [] ```"), ("agents", .arr [])])
      = .ok ⟨"``` [] ```", []⟩
    ∧ orchestrator_parse_step
        ("```json\n" ++ "\x7b\"response\":\"``` [] ```\",\"agents\":[]\x7d" ++ "\n```")
      = .ok fallback_plan
    ∧ orchestrator_parse_step "\x7b\"response\":\"``` [] ```\",\"agents\":[]\x7d"
      = .error (.typeError "argument after ** must be a mapping")
    ∧ orchestrator_parse_step
        ("```json\n" ++ "\x7b\"response\":\"``` [] ```\",\"agents\":[]\x7d" ++ "\n```")
      ≠ orchestrator_parse_step "\x7b\"response\":\"``` [] ```\",\"agents\":[]\x7d" :=
  ⟨rfl, rfl, rfl, rfl, by decide⟩

/-- C4 (amended): for every JSON object text containing no backtick
character and carrying no leading or trailing whitespace, the parse step
extracts the identical text from the ```json-fenced, plain-fenced and
unfenced forms of the response, and therefore produces the identical
parse result; a text containing a ``` fence marker breaks this identity. -/
theorem plan_fence_roundtrip (J : String)
    (hb : noBacktick J.data = true) (hs : pystripS J = J) :
    extract_json_str ("```json\n" ++ J ++ "\n```") = J
    ∧ extract_json_str ("```\n" ++ J ++ "\n```") = J
    ∧ extract_json_str J = J
    ∧ orchestrator_parse_step ("```json\n" ++ J ++ "\n```") = orchestrator_parse_step J
    ∧ orchestrator_parse_step ("```\n" ++ J ++ "\n```") = orchestrator_parse_step J := by
  have hsd : pystripL J.data = J.data := congrArg String.data hs
  have hA : noBacktick ('\n' :: (J.data ++ ['\n'])) = true := by
    have hb2 : ∀ x ∈ J.data, ¬ x = btChar := by
      have h0 := hb
      unfold noBacktick at h0
      simpa using h0
    unfold noBacktick
    simp [List.all_cons, List.all_append]
    exact ⟨by decide, hb2, by decide⟩
  have hstripA : pystripL ('\n' :: (J.data ++ ['\n'])) = J.data := by
    rw [pystripL_cons_ws _ _ (by decide), pystripL_append_ws _ _ (by decide), hsd]
  have e1 : ("```json\n" ++ J ++ "\n```").data
      = "```json".data ++ (('\n' :: (J.data ++ ['\n'])) ++ "```".data) := by
    rw [String.data_append, String.data_append]
    rw [show "```json\n".data = "```json".data ++ ['\n'] from rfl,
        show "\n```".data = ['\n'] ++ "```".data from rfl]
    simp [List.append_assoc]
  have hf1 : findSplit "```json".data ("```json\n" ++ J ++ "\n```").data
      = some ([], ('\n' :: (J.data ++ ['\n'])) ++ "```".data) := by
    rw [e1]
    exact findSplit_append_sep _ _ (by decide)
  have hfr1 : findSplit "```json".data (('\n' :: (J.data ++ ['\n'])) ++ "```".data) = none := by
    rw [findSplit_skip_noBt _ (by decide) (by decide) _ _ hA,
        show findSplit "```json".data "```".data = none from by decide]
    rfl
  have hsplit1 : (pysplitS "```json" ("```json\n" ++ J ++ "\n```")).getD 1 ""
      = ⟨('\n' :: (J.data ++ ['\n'])) ++ "```".data⟩ := by
    unfold pysplitS pysplitL
    rw [pysplitF_of_some _ _ _ _ _ (by omega) hf1, pysplitF_of_none _ _ _ hfr1]
    rfl
  have hfU : findSplit "```".data (('\n' :: (J.data ++ ['\n'])) ++ "```".data)
      = some ('\n' :: (J.data ++ ['\n']), []) := by
    rw [findSplit_skip_noBt _ (by decide) (by decide) _ _ hA,
        show findSplit "```".data "```".data = some ([], []) from by decide]
    simp
  have hsplitU : pysplitL "```".data (('\n' :: (J.data ++ ['\n'])) ++ "```".data)
      = ['\n' :: (J.data ++ ['\n']), []] := by
    unfold pysplitL
    rw [pysplitF_of_some _ _ _ _ _ (by omega) hfU,
      pysplitF_of_none _ _ _ (findSplit_nil _)]
  have hsplitU2 : pysplitS "```" (⟨('\n' :: (J.data ++ ['\n'])) ++ "```".data⟩ : String)
      = [⟨'\n' :: (J.data ++ ['\n'])⟩, ""] := by
    show (pysplitL "```".data (('\n' :: (J.data ++ ['\n'])) ++ "```".data)).map
        (fun l => (⟨l⟩ : String)) = _
    rw [hsplitU]
    rfl
  have hc1 : pyContains "```json" ("```json\n" ++ J ++ "\n```") = true := by
    unfold pyContains
    rw [hf1]
    rfl
  have hx1 : extract_json_str ("```json\n" ++ J ++ "\n```") = J := by
    unfold extract_json_str
    rw [if_pos hc1, hsplit1, hsplitU2]
    show (⟨pystripL ('\n' :: (J.data ++ ['\n']))⟩ : String) = J
    rw [hstripA]
  have e2 : ("```\n" ++ J ++ "\n```").data
      = btChar :: btChar :: btChar :: '\n' :: (J.data ++ ('\n' :: "```".data)) := by
    rw [String.data_append, String.data_append]
    rw [show "```\n".data = btChar :: btChar :: btChar :: '\n' :: [] from rfl,
        show "\n```".data = '\n' :: "```".data from rfl]
    simp
  have hnc2 : pyContains "```json" ("```\n" ++ J ++ "\n```") = false := by
    unfold pyContains
    rw [e2]
    rw [findSplit_cons_notPrefix _ _ _ (by simp [List.isPrefixOf, btChar]),
        findSplit_cons_notPrefix _ _ _ (by simp [List.isPrefixOf, btChar]),
        findSplit_cons_notPrefix _ _ _ (by simp [List.isPrefixOf, btChar]),
        findSplit_cons_notPrefix _ _ _ (by simp [List.isPrefixOf, btChar]),
        findSplit_skip_noBt _ (by decide) (by decide) _ _ hb,
        show findSplit "```json".data ('\n' :: "```".data) = none from by decide]
    rfl
  have e2b : ("```\n" ++ J ++ "\n```").data
      = "```".data ++ (('\n' :: (J.data ++ ['\n'])) ++ "```".data) := by
    rw [String.data_append, String.data_append]
    rw [show "```\n".data = "```".data ++ ['\n'] from rfl,
        show "\n```".data = ['\n'] ++ "```".data from rfl]
    simp [List.append_assoc]
  have hf2 : findSplit "```".data ("```\n" ++ J ++ "\n```").data
      = some ([], ('\n' :: (J.data ++ ['\n'])) ++ "```".data) := by
    rw [e2b]
    exact findSplit_append_sep _ _ (by decide)
  have hsplit2 : (pysplitS "```" ("```\n" ++ J ++ "\n```")).getD 1 ""
      = ⟨'\n' :: (J.data ++ ['\n'])⟩ := by
    unfold pysplitS pysplitL
    rw [pysplitF_of_some _ _ _ _ _ (by omega) hf2,
      pysplitF_of_some _ _ _ _ _
        (by rw [e2b]; simp only [List.length_append, List.length_cons]; omega) hfU,
      pysplitF_of_none _ _ _ (findSplit_nil _)]
    rfl
  have hsplitA : pysplitS "```" (⟨'\n' :: (J.data ++ ['\n'])⟩ : String)
      = [⟨'\n' :: (J.data ++ ['\n'])⟩] := by
    show (pysplitL "```".data ('\n' :: (J.data ++ ['\n']))).map (fun l => (⟨l⟩ : String)) = _
    unfold pysplitL
    rw [pysplitF_of_none _ _ _ (findSplit_noBt_none _ (by decide) (by decide) _ hA)]
    rfl
  have hx2 : extract_json_str ("```\n" ++ J ++ "\n```") = J := by
    unfold extract_json_str
    rw [if_neg (by simp [hnc2]), if_pos (by unfold pyContains; rw [hf2]; rfl)]
    rw [hsplit2, hsplitA]
    show (⟨pystripL ('\n' :: (J.data ++ ['\n']))⟩ : String) = J
    rw [hstripA]
  have hcj : pyContains "```json" J = false := by
    unfold pyContains
    rw [findSplit_noBt_none _ (by decide) (by decide) _ hb]
    rfl
  have hc3 : pyContains "```" J = false := by
    unfold pyContains
    rw [findSplit_noBt_none _ (by decide) (by decide) _ hb]
    rfl
  have hx3 : extract_json_str J = J := by
    unfold extract_json_str
    rw [if_neg (by simp [hcj]), if_neg (by simp [hc3])]
  refine ⟨hx1, hx2, hx3, ?_, ?_⟩
  · unfold orchestrator_parse_step
    rw [hx1, hx3]
  · unfold orchestrator_parse_step
    rw [hx2, hx3]

/-- Witness for `plan_fence_roundtrip` at the plan text of the spec
round-trip example. -/
theorem plan_fence_roundtrip_witness :
    extract_json_str
        ("```json\n" ++ "\x7b\"response\":\"x\",\"agents\":[\x7b\"task\":\"t\",\"prompt\":\"p\"\x7d]\x7d" ++ "\n```")
      = "\x7b\"response\":\"x\",\"agents\":[\x7b\"task\":\"t\",\"prompt\":\"p\"\x7d]\x7d"
    ∧ extract_json_str
        ("```\n" ++ "\x7b\"response\":\"x\",\"agents\":[\x7b\"task\":\"t\",\"prompt\":\"p\"\x7d]\x7d" ++ "\n```")
      = "\x7b\"response\":\"x\",\"agents\":[\x7b\"task\":\"t\",\"prompt\":\"p\"\x7d]\x7d"
    ∧ extract_json_str "\x7b\"response\":\"x\",\"agents\":[\x7b\"task\":\"t\",\"prompt\":\"p\"\x7d]\x7d"
      = "\x7b\"response\":\"x\",\"agents\":[\x7b\"task\":\"t\",\"prompt\":\"p\"\x7d]\x7d"
    ∧ orchestrator_parse_step
        ("```json\n" ++ "\x7b\"response\":\"x\",\"agents\":[\x7b\"task\":\"t\",\"prompt\":\"p\"\x7d]\x7d" ++ "\n```")
      = orchestrator_parse_step "\x7b\"response\":\"x\",\"agents\":[\x7b\"task\":\"t\",\"prompt\":\"p\"\x7d]\x7d"
    ∧ orchestrator_parse_step
        ("```\n" ++ "\x7b\"response\":\"x\",\"agents\":[\x7b\"task\":\"t\",\"prompt\":\"p\"\x7d]\x7d" ++ "\n```")
      = orchestrator_parse_step "\x7b\"response\":\"x\",\"agents\":[\x7b\"task\":\"t\",\"prompt\":\"p\"\x7d]\x7d" :=
  plan_fence_roundtrip "\x7b\"response\":\"x\",\"agents\":[\x7b\"task\":\"t\",\"prompt\":\"p\"\x7d]\x7d"
    (by decide) (by decide)



/-! ## Claim C7 -/

/-- C7, counterexample: on the empty result dict, `bio` is assigned the
present empty string (the first 500 characters of the defaulted snippet),
not an absent value, so not every field defaults to absent. -/
theorem extract_persona_bio_counterexample :
    (PersonaExtractor.extract_persona ⟨none, none, none⟩).bio = some ""
    ∧ (PersonaExtractor.extract_persona ⟨none, none, none⟩).bio ≠ none :=
  ⟨rfl, by decide⟩

/-- C7 (amended): `extract_persona` is a pure total function; on the
empty result dict every field defaults to absent except `bio`, which
defaults to the empty string (and `image_url`, which is never assigned);
and the spec examples hold: the piped title yields the split name and job
title, the experience snippet yields `10+ years`, and the contact snippet
yields the email address. -/
theorem extract_persona_spec_examples :
    PersonaExtractor.extract_persona ⟨none, none, none⟩
      = ⟨none, none, none, none, none, none, none, none, some ""⟩
    ∧ (PersonaExtractor.extract_persona
        ⟨some "Jane Doe | Senior Engineer at Acme", none, none⟩).full_name
      = some "Jane Doe"
    ∧ (PersonaExtractor.extract_persona
        ⟨some "Jane Doe | Senior Engineer at Acme", none, none⟩).job_title
      = some "Senior Engineer at Acme"
    ∧ (PersonaExtractor.extract_persona
        ⟨none, none, some "Jane has 10+ years of experience in distributed systems"⟩).experience
      = some "10+ years"
    ∧ (PersonaExtractor.extract_persona
        ⟨none, none, some "For details contact: jane@acme.com today"⟩).email
      = some "jane@acme.com" :=
  ⟨rfl, rfl, rfl, rfl, rfl⟩


end PersonaWeb
